import Mathlib

set_option maxRecDepth 100000

/-!
Verification of the Style-Finder response-generation pipeline
(`src/models/llm_service.py`, class `GeminiVisionService`).

The two methods under study are `generate_response` (the ModelClient
wrapper around the remote vision model) and `generate_fashion_response`
(the FashionResponder: prompt construction plus the repair state machine
applied to the model's raw answer).

Embedding choices:
* A row of the `all_items` table is a `CatalogItem` record with the three
  columns the code reads: `Item Name`, `Price`, `Link`.
* The remote model call (base64 decoding, transport, provider) is an
  oracle of type `String → Except String String`, mapping the prompt that
  is sent to either the model's text (`Except.ok`) or the string form of
  the exception raised inside the `try` block (`Except.error`).
* Python's `x in s` substring test on strings is embedded as `strContains`,
  a direct substring search over the character lists.
* `similarity_score` and `threshold` are Python floats used only in one
  ordered comparison; they are embedded as rationals.
* Logging is a side effect; the one observable log decision the spec talks
  about (the length-7900 truncation warning) is returned alongside the
  text by `generate_response`, whose first component is the Python return
  value.
-/

namespace StyleFinder

/-- One row of the `all_items` table: the three columns read by
`generate_fashion_response`. -/
structure CatalogItem where
  itemName : String
  price : String
  link : String

/-- Substring search on character lists: does `pat` occur contiguously in
the list?  This is Python's `pat in s` for strings. -/
def hasSub (pat : List Char) : List Char → Bool
  | [] => pat.isEmpty
  | c :: rest => pat.isPrefixOf (c :: rest) || hasSub pat rest

/-- Python's `pat in s` substring containment test. -/
def strContains (s pat : String) : Bool :=
  hasSub pat.data s.data

/-- The f-string building `item_str` in the loop over
`all_items.iterrows()`: the Item Name column, then the Price column in
parentheses after a dollar sign, then a colon and the Link column. -/
def itemStr (row : CatalogItem) : String :=
  row.itemName ++ " ($" ++ row.price ++ "): " ++ row.link

/-- `items_description = "\n".join([f"- {item}" for item in items_list])`. -/
def itemsDescription (all_items : List CatalogItem) : String :=
  String.intercalate "\n" (all_items.map (fun it => "- " ++ itemStr it))

/-- The `assistant_prompt` built when `similarity_score >= threshold`. -/
def exactMatchPrompt (items_description : String) : String :=
  "You\x27re conducting a professional retail catalog analysis. "
    ++ "This image shows standard clothing items available in department stores. "
    ++ "Focus exclusively on professional fashion analysis for a clothing retailer. "
    ++ "ITEM DETAILS (always include this section in your response):\n"
    ++ items_description ++ "\n\n"
    ++ "Please:\n"
    ++ "1. Identify and describe the clothing items objectively (colors, patterns, materials)\n"
    ++ "2. Categorize the overall style (business, casual, etc.)\n"
    ++ "3. Include the ITEM DETAILS section at the end\n\n"
    ++ "This is for a professional retail catalog. Use formal, clinical language."

/-- The `assistant_prompt` built when `similarity_score < threshold`. -/
def similarItemsPrompt (items_description : String) : String :=
  "You\x27re conducting a professional retail catalog analysis. "
    ++ "This image shows standard clothing items available in department stores. "
    ++ "Focus exclusively on professional fashion analysis for a clothing retailer. "
    ++ "SIMILAR ITEMS (always include this section in your response):\n"
    ++ items_description ++ "\n\n"
    ++ "Please:\n"
    ++ "1. Note these are similar but not exact items\n"
    ++ "2. Identify clothing elements objectively (colors, patterns, materials)\n"
    ++ "3. Include the SIMILAR ITEMS section at the end\n\n"
    ++ "This is for a professional retail catalog. Use formal, clinical language."

/-- `GeminiVisionService.generate_response`.  The whole `try` body
(base64 decode, `Image.open`, `generate_content`, `response.text`) is the
oracle outcome `call`; any exception `e` raised there is caught and turned
into the string `f"Error generating response: {e}"`.  The returned pair is
(the Python return value, whether the length-7900 truncation warning was
logged). -/
def generate_response (call : Except String String) : String × Bool :=
  match call with
  | Except.ok content_text => (content_text, decide (content_text.length ≥ 7900))
  | Except.error e => ("Error generating response: " ++ e, false)

/-- `GeminiVisionService.generate_fashion_response`.  `oracle` maps the
prompt sent to the model to the outcome of the remote call (the
user image flows only into the oracle and is folded into it). -/
def generate_fashion_response (oracle : String → Except String String)
    (all_items : List CatalogItem) (similarity_score threshold : ℚ) : String :=
  let items_description := itemsDescription all_items
  let assistant_prompt :=
    if similarity_score ≥ threshold then exactMatchPrompt items_description
    else similarItemsPrompt items_description
  let response := (generate_response (oracle assistant_prompt)).1
  if response.length < 100 then
    let section_header :=
      if similarity_score ≥ threshold then "ITEM DETAILS:" else "SIMILAR ITEMS:"
    "# Fashion Analysis\n\nThis outfit features a collection of carefully coordinated pieces.\n\n"
      ++ section_header ++ "\n" ++ items_description
  else if !(strContains response "ITEM DETAILS:") && !(strContains response "SIMILAR ITEMS:") then
    let section_header :=
      if similarity_score ≥ threshold then "ITEM DETAILS:" else "SIMILAR ITEMS:"
    response ++ "\n\n" ++ section_header ++ "\n" ++ items_description
  else
    response

/-- A model call that always succeeds with text `r` (used to quantify over
the raw string returned by the model call). -/
def constOracle (r : String) : String → Except String String :=
  fun _ => Except.ok r

/-- A model call during which an exception with string form `e` is
raised. -/
def errOracle (e : String) : String → Except String String :=
  fun _ => Except.error e

/-- The catalog row of the spec scenario in §8. -/
def blueShirt : CatalogItem :=
  ⟨"Blue Oxford Shirt", "45", "http://x/1"⟩

/-- A 104-character model answer carrying only the wrong header. -/
def wrongHeaderRaw : String :=
  "SIMILAR ITEMS:" ++ String.mk (List.replicate 90 'x')

/-! ### Helper lemmas about the substring test -/

theorem hasSub_nil_pat (l : List Char) : hasSub [] l = true := by
  cases l <;> simp [hasSub, List.isPrefixOf]

theorem hasSub_of_isPrefixOf {p l : List Char} (h : p.isPrefixOf l = true) :
    hasSub p l = true := by
  cases l with
  | nil =>
    cases p with
    | nil => simp [hasSub]
    | cons c cs => simp [List.isPrefixOf] at h
  | cons c rest => simp [hasSub, h]

theorem hasSub_cons {p l : List Char} (c : Char) (h : hasSub p l = true) :
    hasSub p (c :: l) = true := by
  simp [hasSub, h]

theorem hasSub_append (p a b : List Char) : hasSub p (a ++ (p ++ b)) = true := by
  induction a with
  | nil =>
    simp only [List.nil_append]
    exact hasSub_of_isPrefixOf (by simp)
  | cons c a ih =>
    simpa using hasSub_cons c ih

/-- To show `pat` occurs in `s`, exhibit the character lists on either
side of an occurrence. -/
theorem strContains_intro (s pat : String) (a b : List Char)
    (h : s.data = a ++ (pat.data ++ b)) : strContains s pat = true := by
  unfold strContains
  rw [h]
  exact hasSub_append _ _ _

theorem hasSub_self (p : List Char) : hasSub p p = true :=
  hasSub_of_isPrefixOf (by simp)

theorem hasSub_take (p b : List Char) : hasSub p (p ++ b) = true :=
  hasSub_of_isPrefixOf (by simp)

theorem hasSub_mono_left (p a l : List Char) (h : hasSub p l = true) :
    hasSub p (a ++ l) = true := by
  induction a with
  | nil => simpa using h
  | cons c a ih => simpa using hasSub_cons c ih

/-- Unfolding of `generate_fashion_response`: the model's answer `r` and
the repair state machine applied to it. -/
theorem compose_eq_cases (oracle : String → Except String String)
    (all_items : List CatalogItem) (similarity_score threshold : ℚ) :
    ∃ r : String,
      r = (generate_response (oracle
            (if similarity_score ≥ threshold then exactMatchPrompt (itemsDescription all_items)
             else similarItemsPrompt (itemsDescription all_items)))).1
      ∧ generate_fashion_response oracle all_items similarity_score threshold =
          (if r.length < 100 then
            "# Fashion Analysis\n\nThis outfit features a collection of carefully coordinated pieces.\n\n"
              ++ (if similarity_score ≥ threshold then "ITEM DETAILS:" else "SIMILAR ITEMS:")
              ++ "\n" ++ itemsDescription all_items
          else if !(strContains r "ITEM DETAILS:") && !(strContains r "SIMILAR ITEMS:") then
            r ++ "\n\n"
              ++ (if similarity_score ≥ threshold then "ITEM DETAILS:" else "SIMILAR ITEMS:")
              ++ "\n" ++ itemsDescription all_items
          else r) :=
  ⟨_, rfl, rfl⟩

/-- Whatever the model answers, the repaired output contains at least one
of the two section-header strings. -/
theorem compose_contains_some_header (oracle : String → Except String String)
    (all_items : List CatalogItem) (s t : ℚ) :
    strContains (generate_fashion_response oracle all_items s t) "ITEM DETAILS:" = true
    ∨ strContains (generate_fashion_response oracle all_items s t) "SIMILAR ITEMS:" = true := by
  obtain ⟨r, -, heq⟩ := compose_eq_cases oracle all_items s t
  rw [heq]
  by_cases h1 : r.length < 100
  · rw [if_pos h1]
    by_cases hst : s ≥ t
    · left
      rw [if_pos hst]
      simp only [strContains, String.data_append, List.append_assoc]
      exact hasSub_mono_left _ _ _ (hasSub_take _ _)
    · right
      rw [if_neg hst]
      simp only [strContains, String.data_append, List.append_assoc]
      exact hasSub_mono_left _ _ _ (hasSub_take _ _)
  · rw [if_neg h1]
    by_cases hmiss :
        (!(strContains r "ITEM DETAILS:") && !(strContains r "SIMILAR ITEMS:")) = true
    · rw [if_pos hmiss]
      by_cases hst : s ≥ t
      · left
        rw [if_pos hst]
        simp only [strContains, String.data_append, List.append_assoc]
        exact hasSub_mono_left _ _ _ (hasSub_mono_left _ _ _ (hasSub_take _ _))
      · right
        rw [if_neg hst]
        simp only [strContains, String.data_append, List.append_assoc]
        exact hasSub_mono_left _ _ _ (hasSub_mono_left _ _ _ (hasSub_take _ _))
    · rw [if_neg hmiss]
      cases hA : strContains r "ITEM DETAILS:" with
      | true => exact Or.inl rfl
      | false =>
        cases hB : strContains r "SIMILAR ITEMS:" with
        | true => exact Or.inr rfl
        | false => exact absurd (by simp [hA, hB]) hmiss

theorem isPrefixOf_append_self (x m : List Char) : x.isPrefixOf (x ++ m) = true := by
  induction x with
  | nil => simp [List.isPrefixOf]
  | cons c cs ih => simp [List.isPrefixOf, ih]

theorem hasSub_take_assoc (x y b : List Char) : hasSub (x ++ y) (x ++ (y ++ b)) = true := by
  apply hasSub_of_isPrefixOf
  rw [← List.append_assoc]
  exact isPrefixOf_append_self _ _

theorem intercalate_go_extract (s : String) (as : List String) :
    ∀ acc₁ acc₂ : String,
      String.intercalate.go (acc₁ ++ acc₂) s as = acc₁ ++ String.intercalate.go acc₂ s as := by
  induction as with
  | nil =>
    intro acc₁ acc₂
    rfl
  | cons a as ih =>
    intro acc₁ acc₂
    have h : acc₁ ++ acc₂ ++ s ++ a = acc₁ ++ (acc₂ ++ s ++ a) := String.ext (by simp)
    calc String.intercalate.go (acc₁ ++ acc₂) s (a :: as)
        = String.intercalate.go (acc₁ ++ acc₂ ++ s ++ a) s as := rfl
      _ = String.intercalate.go (acc₁ ++ (acc₂ ++ s ++ a)) s as := by rw [h]
      _ = acc₁ ++ String.intercalate.go (acc₂ ++ s ++ a) s as := ih _ _
      _ = acc₁ ++ String.intercalate.go acc₂ s (a :: as) := rfl

theorem intercalate_cons_cons (s a b : String) (as : List String) :
    String.intercalate s (a :: b :: as) = (a ++ s) ++ String.intercalate s (b :: as) := by
  calc String.intercalate s (a :: b :: as)
      = String.intercalate.go ((a ++ s) ++ b) s as := rfl
    _ = (a ++ s) ++ String.intercalate.go b s as := intercalate_go_extract s as (a ++ s) b
    _ = (a ++ s) ++ String.intercalate s (b :: as) := rfl

/-! ### The claims -/

/-- C2: for every raw string of length < 100 returned by the model call,
`generate_fashion_response` discards it and returns exactly the
synthesized template: the fixed heading, one generic sentence, the
section header matching the similarity comparison, and the rendered item
block. -/
theorem compose_short_raw_synthesized (raw : String) (all_items : List CatalogItem)
    (s t : ℚ) (h : raw.length < 100) :
    generate_fashion_response (constOracle raw) all_items s t =
      "# Fashion Analysis\n\nThis outfit features a collection of carefully coordinated pieces.\n\n"
        ++ (if s ≥ t then "ITEM DETAILS:" else "SIMILAR ITEMS:")
        ++ "\n" ++ itemsDescription all_items := by
  obtain ⟨r, hr, heq⟩ := compose_eq_cases (constOracle raw) all_items s t
  have hr' : r = raw := by simpa [constOracle, generate_response] using hr
  subst hr'
  rw [heq, if_pos h]

/-- Witness for C2: the §8 scenario, a 34-character error string as the
raw model answer. -/
theorem compose_short_raw_synthesized_witness :
    ("Error generating response: timeout" : String).length < 100
    ∧ generate_fashion_response (constOracle "Error generating response: timeout")
        [blueShirt] 1 0 =
      "# Fashion Analysis\n\nThis outfit features a collection of carefully coordinated pieces.\n\n"
        ++ (if (1 : ℚ) ≥ 0 then "ITEM DETAILS:" else "SIMILAR ITEMS:")
        ++ "\n" ++ itemsDescription [blueShirt] :=
  ⟨by decide,
   compose_short_raw_synthesized "Error generating response: timeout" [blueShirt] 1 0 (by decide)⟩

/-- C3: for every raw string of length ≥ 100 containing neither header,
the output is exactly `raw ++ "\n\n" ++ header ++ "\n" ++ renderedBlock`;
the model's prose is preserved as a prefix. -/
theorem compose_appends_missing_section (raw : String) (all_items : List CatalogItem)
    (s t : ℚ) (h1 : 100 ≤ raw.length)
    (h2 : strContains raw "ITEM DETAILS:" = false)
    (h3 : strContains raw "SIMILAR ITEMS:" = false) :
    generate_fashion_response (constOracle raw) all_items s t =
      raw ++ "\n\n" ++ (if s ≥ t then "ITEM DETAILS:" else "SIMILAR ITEMS:")
        ++ "\n" ++ itemsDescription all_items := by
  obtain ⟨r, hr, heq⟩ := compose_eq_cases (constOracle raw) all_items s t
  have hr' : r = raw := by simpa [constOracle, generate_response] using hr
  subst hr'
  rw [heq, if_neg (by omega), if_pos (by simp [h2, h3])]

/-- Witness for C3: 150 characters of headerless prose in the
below-threshold branch, as in the §8 scenario. -/
theorem compose_appends_missing_section_witness :
    100 ≤ (String.mk (List.replicate 150 'p')).length
    ∧ strContains (String.mk (List.replicate 150 'p')) "ITEM DETAILS:" = false
    ∧ strContains (String.mk (List.replicate 150 'p')) "SIMILAR ITEMS:" = false
    ∧ generate_fashion_response (constOracle (String.mk (List.replicate 150 'p')))
        [blueShirt] 0 1 =
      String.mk (List.replicate 150 'p') ++ "\n\n"
        ++ (if (0 : ℚ) ≥ 1 then "ITEM DETAILS:" else "SIMILAR ITEMS:")
        ++ "\n" ++ itemsDescription [blueShirt] :=
  ⟨by decide, by decide, by decide,
   compose_appends_missing_section (String.mk (List.replicate 150 'p')) [blueShirt] 0 1
     (by decide) (by decide) (by decide)⟩

/-- C5: for every raw string of length ≥ 100 that already contains the
header matching the similarity comparison, the output is `raw`
unchanged. -/
theorem compose_complete_returns_raw (raw : String) (all_items : List CatalogItem)
    (s t : ℚ) (h1 : 100 ≤ raw.length)
    (hc : strContains raw (if s ≥ t then "ITEM DETAILS:" else "SIMILAR ITEMS:") = true) :
    generate_fashion_response (constOracle raw) all_items s t = raw := by
  obtain ⟨r, hr, heq⟩ := compose_eq_cases (constOracle raw) all_items s t
  have hr' : r = raw := by simpa [constOracle, generate_response] using hr
  subst hr'
  rw [heq, if_neg (by omega)]
  by_cases hst : s ≥ t
  · rw [if_pos hst] at hc
    rw [if_neg (by simp [hc])]
  · rw [if_neg hst] at hc
    rw [if_neg (by simp [hc])]

/-- Witness for C5: a 103-character answer starting with the correct
header in the above-threshold branch. -/
theorem compose_complete_returns_raw_witness :
    100 ≤ ("ITEM DETAILS:" ++ String.mk (List.replicate 90 'w')).length
    ∧ strContains ("ITEM DETAILS:" ++ String.mk (List.replicate 90 'w'))
        (if (1 : ℚ) ≥ 0 then "ITEM DETAILS:" else "SIMILAR ITEMS:") = true
    ∧ generate_fashion_response
        (constOracle ("ITEM DETAILS:" ++ String.mk (List.replicate 90 'w')))
        [blueShirt] 1 0 =
      "ITEM DETAILS:" ++ String.mk (List.replicate 90 'w') :=
  ⟨by decide, by decide,
   compose_complete_returns_raw ("ITEM DETAILS:" ++ String.mk (List.replicate 90 'w'))
     [blueShirt] 1 0 (by decide) (by decide)⟩

/-- C9: the missing-section check is header-agnostic: any raw string of
length ≥ 100 containing either header substring — even the one not
matching the similarity branch — is returned unchanged. -/
theorem compose_keeps_raw_with_any_header (raw : String) (all_items : List CatalogItem)
    (s t : ℚ) (h1 : 100 ≤ raw.length)
    (hc : strContains raw "ITEM DETAILS:" = true ∨ strContains raw "SIMILAR ITEMS:" = true) :
    generate_fashion_response (constOracle raw) all_items s t = raw := by
  obtain ⟨r, hr, heq⟩ := compose_eq_cases (constOracle raw) all_items s t
  have hr' : r = raw := by simpa [constOracle, generate_response] using hr
  subst hr'
  rw [heq, if_neg (by omega)]
  rcases hc with hc | hc <;> rw [if_neg (by simp [hc])]

/-- C1 counterexample: with score 1 ≥ threshold 0 the correct header is
`ITEM DETAILS:`, yet a 104-character model answer carrying only
`SIMILAR ITEMS:` is returned unchanged: the output contains neither the
correct header nor the rendered item block. -/
theorem compose_header_block_invariant_cex :
    generate_fashion_response (constOracle wrongHeaderRaw) [blueShirt] 1 0 = wrongHeaderRaw
    ∧ strContains wrongHeaderRaw "ITEM DETAILS:" = false
    ∧ strContains wrongHeaderRaw (itemsDescription [blueShirt]) = false := by
  refine ⟨by decide, by decide, by decide⟩

/-- C1 (amended): every output of `generate_fashion_response` contains at
least one of the two section headers; and whenever the raw model answer
is short (< 100) or contains neither header, the output contains the
correct section header immediately followed by the rendered item block.
When a long raw answer already contains a header substring it is returned
as-is, so the header present may be the wrong one and the rendered block
may be absent. -/
theorem compose_header_block_invariant (raw : String) (all_items : List CatalogItem)
    (s t : ℚ) :
    (strContains (generate_fashion_response (constOracle raw) all_items s t)
        "ITEM DETAILS:" = true
     ∨ strContains (generate_fashion_response (constOracle raw) all_items s t)
        "SIMILAR ITEMS:" = true)
    ∧ ((raw.length < 100
        ∨ (strContains raw "ITEM DETAILS:" = false ∧ strContains raw "SIMILAR ITEMS:" = false)) →
       strContains (generate_fashion_response (constOracle raw) all_items s t)
         ((if s ≥ t then "ITEM DETAILS:" else "SIMILAR ITEMS:")
           ++ ("\n" ++ itemsDescription all_items)) = true) := by
  constructor
  · exact compose_contains_some_header (constOracle raw) all_items s t
  · intro hAB
    obtain ⟨r, hr, heq⟩ := compose_eq_cases (constOracle raw) all_items s t
    have hr' : r = raw := by simpa [constOracle, generate_response] using hr
    rw [hr'] at heq
    rw [heq]
    by_cases h1 : raw.length < 100
    · rw [if_pos h1]
      by_cases hst : s ≥ t
      · rw [if_pos hst]
        simp only [strContains, String.data_append, List.append_assoc]
        exact hasSub_mono_left _ _ _ (hasSub_self _)
      · rw [if_neg hst]
        simp only [strContains, String.data_append, List.append_assoc]
        exact hasSub_mono_left _ _ _ (hasSub_self _)
    · rcases hAB with hlen | ⟨h2, h3⟩
      · exact absurd hlen h1
      · rw [if_neg h1, if_pos (by simp [h2, h3])]
        by_cases hst : s ≥ t
        · rw [if_pos hst]
          simp only [strContains, String.data_append, List.append_assoc]
          exact hasSub_mono_left _ _ _ (hasSub_mono_left _ _ _ (hasSub_self _))
        · rw [if_neg hst]
          simp only [strContains, String.data_append, List.append_assoc]
          exact hasSub_mono_left _ _ _ (hasSub_mono_left _ _ _ (hasSub_self _))

/-- C4: `generate_response` is a total function into strings (the
embedding maps every raised exception to the `Except.error` outcome); on
any internal failure `e` it returns the fixed marker
`Error generating response: ` followed by the cause. -/
theorem generate_response_error_contained (e : String) :
    (generate_response (Except.error e)).1 = "Error generating response: " ++ e
    ∧ ("Error generating response: " : String).data
        <+: (generate_response (Except.error e)).1.data :=
  ⟨rfl, e.data, by simp [generate_response]⟩

/-- C6: the rendered item block is the newline-join of one line per item
formatted as `- <name> ($<price>): <link>`; for the empty sequence it is
the empty string, and a section header is still present in the returned
response. -/
theorem itemsDescription_renders_bullets (r : CatalogItem) (rest : List CatalogItem)
    (raw : String) (s t : ℚ) :
    itemsDescription [] = ""
    ∧ itemsDescription (r :: rest)
        = ("- " ++ r.itemName ++ " ($" ++ r.price ++ "): " ++ r.link)
          ++ (if rest.isEmpty then "" else "\n" ++ itemsDescription rest)
    ∧ (strContains (generate_fashion_response (constOracle raw) [] s t)
        "ITEM DETAILS:" = true
       ∨ strContains (generate_fashion_response (constOracle raw) [] s t)
        "SIMILAR ITEMS:" = true) := by
  refine ⟨rfl, ?_, compose_contains_some_header (constOracle raw) [] s t⟩
  cases rest with
  | nil =>
    apply String.ext
    simp [itemsDescription, itemStr, String.intercalate, String.intercalate.go]
  | cons r' rest' =>
    apply String.ext
    rw [itemsDescription, List.map_cons, List.map_cons, intercalate_cons_cons]
    simp [itemsDescription, itemStr]

/-- C7 counterexample: the exact-match prompt never contains the literal
substring `ITEM DETAILS:` — its section is headed
`ITEM DETAILS (always include this section in your response):` instead. -/
theorem prompt_literal_header_cex :
    strContains (exactMatchPrompt (itemsDescription [blueShirt])) "ITEM DETAILS:" = false := by
  decide

/-- C7 (amended): when the score reaches the threshold, the prompt built
and sent to the model is the exact-match prompt, and that prompt contains
the section heading `ITEM DETAILS (always include this section in your
response):` immediately followed by the rendered item block. -/
theorem prompt_contains_items_section (all_items : List CatalogItem) (s t : ℚ)
    (oracle : String → Except String String) (h : s ≥ t) :
    strContains (exactMatchPrompt (itemsDescription all_items))
        ("ITEM DETAILS (always include this section in your response):\n"
          ++ itemsDescription all_items) = true
    ∧ generate_fashion_response oracle all_items s t
        = generate_fashion_response
            (fun _ => oracle (exactMatchPrompt (itemsDescription all_items))) all_items s t := by
  constructor
  · simp only [exactMatchPrompt, strContains, String.data_append, List.append_assoc]
    exact hasSub_mono_left _ _ _ (hasSub_mono_left _ _ _ (hasSub_mono_left _ _ _
      (hasSub_take_assoc _ _ _)))
  · obtain ⟨r1, hr1, heq1⟩ := compose_eq_cases oracle all_items s t
    obtain ⟨r2, hr2, heq2⟩ :=
      compose_eq_cases (fun _ => oracle (exactMatchPrompt (itemsDescription all_items)))
        all_items s t
    have hr12 : r1 = r2 := by rw [hr1, hr2, if_pos h]
    rw [heq1, heq2, hr12]

/-- Witness for C7 (amended): one concrete above-threshold instance. -/
theorem prompt_contains_items_section_witness :
    (1 : ℚ) ≥ 0
    ∧ (strContains (exactMatchPrompt (itemsDescription [blueShirt]))
         ("ITEM DETAILS (always include this section in your response):\n"
           ++ itemsDescription [blueShirt]) = true
       ∧ generate_fashion_response (constOracle "") [blueShirt] 1 0
           = generate_fashion_response
               (fun _ => constOracle "" (exactMatchPrompt (itemsDescription [blueShirt])))
               [blueShirt] 1 0) :=
  ⟨by decide, prompt_contains_items_section [blueShirt] 1 0 (constOracle "") (by decide)⟩

/-- C8: on a successful model call the returned value is the model's text
verbatim, whatever its length; the length-7900 check only drives the
truncation-warning flag and never alters the returned value. -/
theorem generate_response_ok_verbatim (content_text : String) :
    (generate_response (Except.ok content_text)).1 = content_text
    ∧ ((generate_response (Except.ok content_text)).2 = true
        ↔ 7900 ≤ content_text.length) := by
  refine ⟨rfl, ?_⟩
  simp [generate_response]

/-- C10: when the exception's string form is long enough that the error
string reaches length ≥ 100 and contains no header substring, the repair
stage treats it as prose: the error text is preserved as a prefix of the
value returned to the caller, with the section header and rendered block
appended. -/
theorem compose_long_error_treated_as_prose (e : String) (all_items : List CatalogItem)
    (s t : ℚ)
    (h1 : 100 ≤ ("Error generating response: " ++ e).length)
    (h2 : strContains ("Error generating response: " ++ e) "ITEM DETAILS:" = false)
    (h3 : strContains ("Error generating response: " ++ e) "SIMILAR ITEMS:" = false) :
    generate_fashion_response (errOracle e) all_items s t
      = ("Error generating response: " ++ e) ++ "\n\n"
        ++ (if s ≥ t then "ITEM DETAILS:" else "SIMILAR ITEMS:")
        ++ "\n" ++ itemsDescription all_items
    ∧ ("Error generating response: " ++ e).data
        <+: (generate_fashion_response (errOracle e) all_items s t).data := by
  obtain ⟨r, hr, heq⟩ := compose_eq_cases (errOracle e) all_items s t
  have hr' : r = "Error generating response: " ++ e := by
    simpa [errOracle, generate_response] using hr
  subst hr'
  have hout : generate_fashion_response (errOracle e) all_items s t
      = ("Error generating response: " ++ e) ++ "\n\n"
        ++ (if s ≥ t then "ITEM DETAILS:" else "SIMILAR ITEMS:")
        ++ "\n" ++ itemsDescription all_items := by
    rw [heq, if_neg (by omega), if_pos (by simp [h2, h3])]
  refine ⟨hout, ?_⟩
  rw [hout]
  refine ⟨("\n\n" ++ (if s ≥ t then "ITEM DETAILS:" else "SIMILAR ITEMS:")
    ++ "\n" ++ itemsDescription all_items).data, ?_⟩
  simp

/-- Witness for C10: an 80-character cause makes a 107-character error
string, which is kept as prose with the section appended. -/
theorem compose_long_error_treated_as_prose_witness :
    100 ≤ ("Error generating response: " ++ String.mk (List.replicate 80 'y')).length
    ∧ strContains ("Error generating response: " ++ String.mk (List.replicate 80 'y'))
        "ITEM DETAILS:" = false
    ∧ strContains ("Error generating response: " ++ String.mk (List.replicate 80 'y'))
        "SIMILAR ITEMS:" = false
    ∧ (generate_fashion_response (errOracle (String.mk (List.replicate 80 'y'))) [blueShirt] 1 0
        = ("Error generating response: " ++ String.mk (List.replicate 80 'y')) ++ "\n\n"
          ++ (if (1 : ℚ) ≥ 0 then "ITEM DETAILS:" else "SIMILAR ITEMS:")
          ++ "\n" ++ itemsDescription [blueShirt]
       ∧ ("Error generating response: " ++ String.mk (List.replicate 80 'y')).data
          <+: (generate_fashion_response (errOracle (String.mk (List.replicate 80 'y')))
                [blueShirt] 1 0).data) :=
  ⟨by decide, by decide, by decide,
   compose_long_error_treated_as_prose (String.mk (List.replicate 80 'y')) [blueShirt] 1 0
     (by decide) (by decide) (by decide)⟩

/-- Witness for C9: a 104-character answer carrying only the
below-threshold header while the score is above the threshold. -/
theorem compose_keeps_raw_with_any_header_witness :
    100 ≤ ("SIMILAR ITEMS:" ++ String.mk (List.replicate 90 'z')).length
    ∧ (strContains ("SIMILAR ITEMS:" ++ String.mk (List.replicate 90 'z')) "ITEM DETAILS:" = true
       ∨ strContains ("SIMILAR ITEMS:" ++ String.mk (List.replicate 90 'z')) "SIMILAR ITEMS:" = true)
    ∧ generate_fashion_response
        (constOracle ("SIMILAR ITEMS:" ++ String.mk (List.replicate 90 'z')))
        [blueShirt] 1 0 =
      "SIMILAR ITEMS:" ++ String.mk (List.replicate 90 'z') :=
  ⟨by decide, Or.inr (by decide),
   compose_keeps_raw_with_any_header ("SIMILAR ITEMS:" ++ String.mk (List.replicate 90 'z'))
     [blueShirt] 1 0 (by decide) (Or.inr (by decide))⟩

end StyleFinder
